import Mathlib

/-!
Verification of the ExtraResult async combinators for the Rust Result type
(src/lib.rs, crate extra-result-rs).

The crate implements async versions of the standard Result methods.  Each
combinator takes ownership of the Result and an async step (an AsyncFnOnce)
and awaits the step only in the matching branch.  We model an async
computation as a state-threading function: awaiting is monadic bind, and
the state records whatever effects the step performs.  To express claims
about how often a step is invoked, we instrument a pure step so that each
invocation increments a counter held in the state.
-/

/-- The Rust Result type: Ok carries the success value, Err the error. -/
inductive Result (T E : Type) where
  | ok (v : T)
  | err (e : E)
deriving DecidableEq, Repr

/-- An async computation producing a value of type α, modelled as a
state-threading function.  The state σ records the effects performed by
the awaited steps. -/
def Async (σ α : Type) : Type := σ → α × σ

/-- A completed async computation with no effect (a plain value inside an
async block). -/
def Async.pure {σ α : Type} (a : α) : Async σ α := fun s => (a, s)

/-- Awaiting one computation and continuing with another: sequential
composition of effects. -/
def Async.bind {σ α β : Type} (m : Async σ α) (k : α → Async σ β) : Async σ β :=
  fun s => k (m s).1 (m s).2

/-- From src/lib.rs map_fut: on Ok(v) it awaits f(v) and wraps the value
in Ok; on Err(e) it returns Err(e) without touching f. -/
def map_fut {T E U σ : Type} (self : Result T E) (f : T → Async σ U) :
    Async σ (Result U E) :=
  match self with
  | Result.ok v => Async.bind (f v) (fun u => Async.pure (Result.ok u))
  | Result.err e => Async.pure (Result.err e)

/-- From src/lib.rs map_or_fut: on Ok(v) it awaits f(v); on Err(_) it
returns the supplied default value without touching f. -/
def map_or_fut {T E U σ : Type} (self : Result T E) (d : U) (f : T → Async σ U) :
    Async σ U :=
  match self with
  | Result.ok v => f v
  | Result.err _ => Async.pure d

/-- From src/lib.rs map_or_else_fut: on Ok(v) it awaits f(v); on Err(e)
it awaits the default step on e.  Exactly one of the two steps runs. -/
def map_or_else_fut {T E U σ : Type} (self : Result T E) (d : E → Async σ U)
    (f : T → Async σ U) : Async σ U :=
  match self with
  | Result.ok v => f v
  | Result.err e => d e

/-- From src/lib.rs map_err_fut: on Ok(v) it returns Ok(v) untouched; on
Err(e) it awaits f(e) and wraps the value in Err. -/
def map_err_fut {T E U σ : Type} (self : Result T E) (f : E → Async σ U) :
    Async σ (Result T U) :=
  match self with
  | Result.ok v => Async.pure (Result.ok v)
  | Result.err e => Async.bind (f e) (fun u => Async.pure (Result.err u))

/-- From src/lib.rs inspect_fut: on Ok it awaits f on a reference to the
value for its side effect; in both cases the original Result is returned. -/
def inspect_fut {T E σ : Type} (self : Result T E) (f : T → Async σ Unit) :
    Async σ (Result T E) :=
  match self with
  | Result.ok v => Async.bind (f v) (fun _ => Async.pure (Result.ok v))
  | Result.err e => Async.pure (Result.err e)

/-- From src/lib.rs inspect_err_fut: on Err it awaits f on a reference to
the error for its side effect; in both cases the original Result is
returned. -/
def inspect_err_fut {T E σ : Type} (self : Result T E) (f : E → Async σ Unit) :
    Async σ (Result T E) :=
  match self with
  | Result.ok v => Async.pure (Result.ok v)
  | Result.err e => Async.bind (f e) (fun _ => Async.pure (Result.err e))

/-- From src/lib.rs and_then_fut: on Ok(v) the combinator is exactly the
awaited step f(v), whose Result (Ok or Err) is returned as is; on Err(e)
it returns Err(e) without touching f. -/
def and_then_fut {T E U σ : Type} (self : Result T E)
    (f : T → Async σ (Result U E)) : Async σ (Result U E) :=
  match self with
  | Result.ok v => f v
  | Result.err e => Async.pure (Result.err e)

/-- From src/lib.rs or_else_fut: on Ok(v) it returns Ok(v) without
touching f; on Err(e) the combinator is exactly the awaited step f(e),
whose Result (recovery to Ok included) is returned as is. -/
def or_else_fut {T E U σ : Type} (self : Result T E)
    (f : E → Async σ (Result T U)) : Async σ (Result T U) :=
  match self with
  | Result.ok v => Async.pure (Result.ok v)
  | Result.err e => f e

/-- From src/lib.rs unwrap_or_else_fut: on Ok(v) it returns the plain
value v without touching f; on Err(e) it awaits f(e) and returns its
value. -/
def unwrap_or_else_fut {T E σ : Type} (self : Result T E) (f : E → Async σ T) :
    Async σ T :=
  match self with
  | Result.ok v => Async.pure v
  | Result.err e => f e

/-- From src/lib.rs is_ok_and_fut: on Ok(v) it awaits the predicate on a
reference to v; on Err(_) it returns false without touching f. -/
def is_ok_and_fut {T E σ : Type} (self : Result T E) (f : T → Async σ Bool) :
    Async σ Bool :=
  match self with
  | Result.ok v => f v
  | Result.err _ => Async.pure false

/-- From src/lib.rs is_err_and_fut: on Ok(_) it returns false without
touching f; on Err(e) it awaits the predicate on a reference to e. -/
def is_err_and_fut {T E σ : Type} (self : Result T E) (f : E → Async σ Bool) :
    Async σ Bool :=
  match self with
  | Result.ok _ => Async.pure false
  | Result.err e => f e

/-- Instrument a pure step so every invocation increments a counter: the
counter after a combinator call tells exactly how many times the step was
awaited. -/
def tick {T U : Type} (g : T → U) : T → Async Nat U :=
  fun a n => (g a, n + 1)

/-- Instrument a pure step so every invocation increments the first of
two counters (used for the default step of map_or_else_fut). -/
def tickFst {T U : Type} (g : T → U) : T → Async (Nat × Nat) U :=
  fun a s => (g a, (s.1 + 1, s.2))

/-- Instrument a pure step so every invocation increments the second of
two counters (used for the success step of map_or_else_fut). -/
def tickSnd {T U : Type} (g : T → U) : T → Async (Nat × Nat) U :=
  fun a s => (g a, (s.1, s.2 + 1))

/-- Claim C1: and_then_fut on Ok(v) is exactly the awaited computation
f(v), effects included, whatever Result (Ok or Err) it produces; on
Err(e) it returns Err(e) with the state untouched, so f contributes
nothing, and an invocation counter on f stays put. -/
theorem and_then_fut_spec {T E U σ : Type} :
    (∀ (v : T) (f : T → Async σ (Result U E)),
      and_then_fut (Result.ok v) f = f v) ∧
    (∀ (e : E) (f : T → Async σ (Result U E)) (s : σ),
      and_then_fut (Result.err e) f s = (Result.err e, s)) ∧
    (∀ (e : E) (g : T → Result U E) (n : Nat),
      (and_then_fut (Result.err e) (tick g) n).2 = n) := by
  repeat' apply And.intro
  all_goals intros
  all_goals rfl

/-- Claim C2: map_fut on Ok(v) awaits f(v) and returns Ok of its value,
with exactly the effect of f(v) on the state; on Err(e) it returns
Err(e) with the state untouched, and an invocation counter on f stays
put. -/
theorem map_fut_spec {T E U σ : Type} :
    (∀ (v : T) (f : T → Async σ U) (s : σ),
      map_fut (E := E) (Result.ok v) f s = (Result.ok (f v s).1, (f v s).2)) ∧
    (∀ (e : E) (f : T → Async σ U) (s : σ),
      map_fut (Result.err e) f s = (Result.err e, s)) ∧
    (∀ (e : E) (g : T → U) (n : Nat),
      (map_fut (Result.err e) (tick g) n).2 = n) := by
  repeat' apply And.intro
  all_goals intros
  all_goals rfl

/-- Claim C3: or_else_fut on Err(e) is exactly the awaited computation
f(e), effects included, whatever Result (recovery to Ok included) it
produces; on Ok(v) it returns Ok(v) with the state untouched, so f
contributes nothing, and an invocation counter on f stays put. -/
theorem or_else_fut_spec {T E U σ : Type} :
    (∀ (e : E) (f : E → Async σ (Result T U)),
      or_else_fut (Result.err e) f = f e) ∧
    (∀ (v : T) (f : E → Async σ (Result T U)) (s : σ),
      or_else_fut (Result.ok v) f s = (Result.ok v, s)) ∧
    (∀ (v : T) (g : E → Result T U) (n : Nat),
      (or_else_fut (Result.ok v) (tick g) n).2 = n) := by
  repeat' apply And.intro
  all_goals intros
  all_goals rfl

/-- Claim C4: map_err_fut on Err(e) awaits f(e) and returns Err of its
value, with exactly the effect of f(e) on the state; on Ok(v) it returns
Ok(v) unchanged with the state untouched, and an invocation counter on f
stays put. -/
theorem map_err_fut_spec {T E U σ : Type} :
    (∀ (e : E) (f : E → Async σ U) (s : σ),
      map_err_fut (T := T) (Result.err e) f s = (Result.err (f e s).1, (f e s).2)) ∧
    (∀ (v : T) (f : E → Async σ U) (s : σ),
      map_err_fut (Result.ok v) f s = (Result.ok v, s)) ∧
    (∀ (v : T) (g : E → U) (n : Nat),
      (map_err_fut (Result.ok v) (tick g) n).2 = n) := by
  repeat' apply And.intro
  all_goals intros
  all_goals rfl

/-- Claim C5: across every operation of the ExtraResult interface, an
instrumented step is awaited exactly once when the active variant matches
the target branch of the operation and zero times otherwise, never more
than once and never speculatively; map_or_else_fut is the exception that
always awaits exactly one of its two steps (its success counter moves
exactly on Ok, its default counter exactly on Err). -/
theorem extra_result_single_use {T E U : Type} :
    (∀ (v : T) (g : T → U) (n : Nat),
      (map_fut (E := E) (Result.ok v) (tick g) n).2 = n + 1) ∧
    (∀ (e : E) (g : T → U) (n : Nat),
      (map_fut (Result.err e) (tick g) n).2 = n) ∧
    (∀ (v : T) (d : U) (g : T → U) (n : Nat),
      (map_or_fut (E := E) (Result.ok v) d (tick g) n).2 = n + 1) ∧
    (∀ (e : E) (d : U) (g : T → U) (n : Nat),
      (map_or_fut (Result.err e) d (tick g) n).2 = n) ∧
    (∀ (v : T) (gd : E → U) (g : T → U) (p : Nat × Nat),
      (map_or_else_fut (Result.ok v) (tickFst gd) (tickSnd g) p).2
        = (p.1, p.2 + 1)) ∧
    (∀ (e : E) (gd : E → U) (g : T → U) (p : Nat × Nat),
      (map_or_else_fut (Result.err e) (tickFst gd) (tickSnd g) p).2
        = (p.1 + 1, p.2)) ∧
    (∀ (e : E) (g : E → U) (n : Nat),
      (map_err_fut (T := T) (Result.err e) (tick g) n).2 = n + 1) ∧
    (∀ (v : T) (g : E → U) (n : Nat),
      (map_err_fut (Result.ok v) (tick g) n).2 = n) ∧
    (∀ (v : T) (g : T → Unit) (n : Nat),
      (inspect_fut (E := E) (Result.ok v) (tick g) n).2 = n + 1) ∧
    (∀ (e : E) (g : T → Unit) (n : Nat),
      (inspect_fut (Result.err e) (tick g) n).2 = n) ∧
    (∀ (e : E) (g : E → Unit) (n : Nat),
      (inspect_err_fut (T := T) (Result.err e) (tick g) n).2 = n + 1) ∧
    (∀ (v : T) (g : E → Unit) (n : Nat),
      (inspect_err_fut (Result.ok v) (tick g) n).2 = n) ∧
    (∀ (v : T) (g : T → Result U E) (n : Nat),
      (and_then_fut (Result.ok v) (tick g) n).2 = n + 1) ∧
    (∀ (e : E) (g : T → Result U E) (n : Nat),
      (and_then_fut (Result.err e) (tick g) n).2 = n) ∧
    (∀ (e : E) (g : E → Result T U) (n : Nat),
      (or_else_fut (Result.err e) (tick g) n).2 = n + 1) ∧
    (∀ (v : T) (g : E → Result T U) (n : Nat),
      (or_else_fut (Result.ok v) (tick g) n).2 = n) ∧
    (∀ (e : E) (g : E → T) (n : Nat),
      (unwrap_or_else_fut (Result.err e) (tick g) n).2 = n + 1) ∧
    (∀ (v : T) (g : E → T) (n : Nat),
      (unwrap_or_else_fut (Result.ok v) (tick g) n).2 = n) ∧
    (∀ (v : T) (g : T → Bool) (n : Nat),
      (is_ok_and_fut (E := E) (Result.ok v) (tick g) n).2 = n + 1) ∧
    (∀ (e : E) (g : T → Bool) (n : Nat),
      (is_ok_and_fut (Result.err e) (tick g) n).2 = n) ∧
    (∀ (e : E) (g : E → Bool) (n : Nat),
      (is_err_and_fut (T := T) (Result.err e) (tick g) n).2 = n + 1) ∧
    (∀ (v : T) (g : E → Bool) (n : Nat),
      (is_err_and_fut (Result.ok v) (tick g) n).2 = n) := by
  repeat' apply And.intro
  all_goals intros
  all_goals rfl

/-- Claim C6: map_or_else_fut on Ok(v) is exactly the awaited success
step f(v), effects and value included; on Err(e) it is exactly the
awaited default step d(e); with both steps instrumented on separate
counters, exactly one counter advances by one in each branch, so exactly
one of the two steps runs and never both or neither. -/
theorem map_or_else_fut_spec {T E U σ : Type} :
    (∀ (v : T) (d : E → Async σ U) (f : T → Async σ U),
      map_or_else_fut (Result.ok v) d f = f v) ∧
    (∀ (e : E) (d : E → Async σ U) (f : T → Async σ U),
      map_or_else_fut (Result.err e) d f = d e) ∧
    (∀ (v : T) (gd : E → U) (g : T → U) (p : Nat × Nat),
      (map_or_else_fut (Result.ok v) (tickFst gd) (tickSnd g) p).2
        = (p.1, p.2 + 1)) ∧
    (∀ (e : E) (gd : E → U) (g : T → U) (p : Nat × Nat),
      (map_or_else_fut (Result.err e) (tickFst gd) (tickSnd g) p).2
        = (p.1 + 1, p.2)) := by
  repeat' apply And.intro
  all_goals intros
  all_goals rfl

/-- Claim C7: inspect_fut and inspect_err_fut return the input Result
with variant and payload unaltered whatever the step does; the side
effect of the step lands on the state exactly when the matching variant
is active (effect of f on Ok for inspect_fut, of f on Err for
inspect_err_fut, state untouched otherwise), and an invocation counter
advances by one exactly in the matching branch. -/
theorem inspect_fut_spec {T E σ : Type} :
    (∀ (r : Result T E) (f : T → Async σ Unit) (s : σ),
      (inspect_fut r f s).1 = r) ∧
    (∀ (r : Result T E) (f : E → Async σ Unit) (s : σ),
      (inspect_err_fut r f s).1 = r) ∧
    (∀ (v : T) (f : T → Async σ Unit) (s : σ),
      (inspect_fut (E := E) (Result.ok v) f s).2 = (f v s).2) ∧
    (∀ (e : E) (f : T → Async σ Unit) (s : σ),
      inspect_fut (Result.err e) f s = (Result.err e, s)) ∧
    (∀ (e : E) (f : E → Async σ Unit) (s : σ),
      (inspect_err_fut (T := T) (Result.err e) f s).2 = (f e s).2) ∧
    (∀ (v : T) (f : E → Async σ Unit) (s : σ),
      inspect_err_fut (Result.ok v) f s = (Result.ok v, s)) ∧
    (∀ (v : T) (g : T → Unit) (n : Nat),
      (inspect_fut (E := E) (Result.ok v) (tick g) n).2 = n + 1) ∧
    (∀ (e : E) (g : T → Unit) (n : Nat),
      (inspect_fut (Result.err e) (tick g) n).2 = n) ∧
    (∀ (e : E) (g : E → Unit) (n : Nat),
      (inspect_err_fut (T := T) (Result.err e) (tick g) n).2 = n + 1) ∧
    (∀ (v : T) (g : E → Unit) (n : Nat),
      (inspect_err_fut (Result.ok v) (tick g) n).2 = n) := by
  repeat' apply And.intro
  all_goals intros
  all_goals first
    | rfl
    | (rename_i r f s; cases r <;> rfl)

/-- Claim C8: unwrap_or_else_fut on Ok(v) returns the plain value v with
the state untouched (an invocation counter on f stays put); on Err(e) it
is exactly the awaited computation f(e), effects and value included. -/
theorem unwrap_or_else_fut_spec {T E σ : Type} :
    (∀ (v : T) (f : E → Async σ T) (s : σ),
      unwrap_or_else_fut (Result.ok v) f s = (v, s)) ∧
    (∀ (v : T) (g : E → T) (n : Nat),
      (unwrap_or_else_fut (Result.ok v) (tick g) n).2 = n) ∧
    (∀ (e : E) (f : E → Async σ T),
      unwrap_or_else_fut (Result.err e) f = f e) := by
  repeat' apply And.intro
  all_goals intros
  all_goals rfl

/-- Claim C9: is_ok_and_fut returns false on any Err input with the state
untouched, regardless of the predicate, and on Ok(v) is exactly the
awaited computation f(v); symmetrically is_err_and_fut returns false on
any Ok input regardless of the predicate and on Err(e) is exactly the
awaited computation f(e). -/
theorem is_ok_and_fut_is_err_and_fut_spec {T E σ : Type} :
    (∀ (e : E) (f : T → Async σ Bool) (s : σ),
      is_ok_and_fut (Result.err e) f s = (false, s)) ∧
    (∀ (v : T) (f : T → Async σ Bool),
      is_ok_and_fut (E := E) (Result.ok v) f = f v) ∧
    (∀ (v : T) (f : E → Async σ Bool) (s : σ),
      is_err_and_fut (Result.ok v) f s = (false, s)) ∧
    (∀ (e : E) (f : E → Async σ Bool),
      is_err_and_fut (T := T) (Result.err e) f = f e) := by
  repeat' apply And.intro
  all_goals intros
  all_goals rfl

/-- Claim C10: functor identity law for map_fut: mapping with the async
step that returns its argument unchanged gives back the input Result
(and leaves the state untouched), on Ok and Err alike. -/
theorem map_fut_id {T E σ : Type} :
    ∀ (r : Result T E) (s : σ),
      map_fut r (fun v => Async.pure v) s = (r, s) :=
  fun r _ => by cases r <;> rfl
